import Mathlib

/-!
Shallow embedding of the academic-records system (files `SdM.py`,
`PlanDeEstudio.py`, `Persona.py`).  Python objects become Lean structures,
mutating methods become state-passing functions, exceptions become
`Except PyErr`, and the CSV files written by the roster classes become an
`archivo` field holding the rows last written.  Printed messages are not
modelled except where a method branches on them (the exam-registration
outcomes, modelled by an explicit outcome type).  Python object identity
(`in` / `not in` on lists of objects without `__eq__`) is modelled as
structural equality; the claims quantify over "the same student", for which
the two notions agree.
-/

/-- Python exception kinds that the embedded code can raise. -/
inductive PyErr where
  | valueError
  | typeError
  | attributeError
deriving DecidableEq, Repr

/-- A dynamic Python value, used where the source passes arbitrarily typed
arguments (the Curso constructor arguments, the cedula). -/
inductive PyVal where
  | int (n : Int)
  | str (s : String)
  | none
deriving DecidableEq, Repr

/-- Python `str(v)` for the values of `PyVal` (as used by f-strings). -/
def pyStr : PyVal → String
  | .int n => toString n
  | .str s => s
  | .none => "None"

/-- Python `str.strip()`: drop whitespace from both ends. -/
def pyStrip (s : String) : String :=
  String.mk
    (((s.data.dropWhile Char.isWhitespace).reverse.dropWhile
      Char.isWhitespace).reverse)

/-- A run of decimal digits as a number; `none` when empty or when a
non-digit occurs. -/
def parseDigits (ds : List Char) : Option Nat :=
  if ds.isEmpty then none
  else if ds.all Char.isDigit then
    some (ds.foldl (fun n c => n * 10 + (c.toNat - '0'.toNat)) 0)
  else none

/-- Python `int(string)`: strip whitespace, optional sign, decimal digits. -/
def pyIntDeStr (s : String) : Option Int :=
  match (pyStrip s).data with
  | '-' :: rest => (parseDigits rest).map (fun n => -(n : Int))
  | '+' :: rest => (parseDigits rest).map (fun n => (n : Int))
  | ds => (parseDigits ds).map (fun n => (n : Int))

/-- Python `int(v)`: succeeds on ints, and on strings holding an optionally
signed integer literal; `none` models the ValueError / TypeError raised by
`int` on anything else. -/
def pyInt? : PyVal → Option Int
  | .int n => some n
  | .str s => pyIntDeStr s
  | .none => Option.none

/-- Python `str.endswith(sufijo)` over the character lists. -/
def strEndsWith (s sufijo : String) : Bool :=
  sufijo.data.reverse.isPrefixOf s.data.reverse

/-- Python `str.lower()` for the ASCII names used here. -/
def pyLower (s : String) : String :=
  String.mk (s.data.map Char.toLower)

/-- Python `str.title()` restricted to the ASCII letters used here: a letter
following a non-letter is uppercased, a letter following a letter is
lowercased. -/
def pyTitle (s : String) : String :=
  String.mk (s.data.foldl
    (fun (acc : List Char × Bool) c =>
      (acc.1 ++ [if acc.2 then c.toLower else c.toUpper], c.isAlpha))
    ([], false)).1

/-- `UnidadCurricular` (SdM.py lines 48-71 / PlanDeEstudio.py lines 1-6):
plain record of code, name, credits and prerequisite codes. -/
structure UnidadCurricular where
  codigo : String
  nombre : String
  creditos : Int
  previas : List String
deriving DecidableEq, Repr

/-- `PlanDeEstudio` (SdM.py lines 73-151, PlanDeEstudio.py lines 10-89):
a plan name and the ordered list of loaded units.  The JSON loading is an
external input; the embedding takes the resulting list directly. -/
structure PlanDeEstudio where
  nombre_plan : String
  materias : List UnidadCurricular
deriving DecidableEq, Repr

/-- `PlanDeEstudio.buscar_uc_por_codigo`: linear scan for the first unit
whose code equals the argument, `None` (here `none`) when absent. -/
def PlanDeEstudio.buscar_uc_por_codigo (p : PlanDeEstudio) (codigo : String) :
    Option UnidadCurricular :=
  p.materias.find? (fun uc => uc.codigo == codigo)

/-- The code synthesis of `agregar_materia_manual` (PlanDeEstudio.py lines
33-37): `UC` followed by one plus the count of units whose code ends with
the `S<term>` suffix, then the suffix itself. -/
def codigoSintetizado (p : PlanDeEstudio) (semestre : Int) : String :=
  let num_materias_semestre :=
    (p.materias.filter
      (fun uc => strEndsWith uc.codigo ("S" ++ toString semestre))).length
  "UC" ++ toString (num_materias_semestre + 1) ++ "S" ++ toString semestre

/-- `PlanDeEstudio.agregar_materia_manual` (PlanDeEstudio.py lines 20-51):
validates the name and the term range, synthesizes the code and appends the
new unit.  Python `nombre.lower().capitalize()` is `String.capitalize` after
`String.toLower` for the ASCII names used here. -/
def PlanDeEstudio.agregar_materia_manual (p : PlanDeEstudio) (nombre : String)
    (creditos : Int) (semestre : Int) (previas : Option (List String)) :
    Except PyErr PlanDeEstudio :=
  if nombre = "" then .error .valueError
  else if semestre < 1 ∨ semestre > 10 then .error .valueError
  else
    let uc : UnidadCurricular :=
      ⟨codigoSintetizado p semestre, (pyLower nombre).capitalize,
        creditos, previas.getD []⟩
    .ok { p with materias := p.materias ++ [uc] }

/-- `PlanDeEstudio.quitar_materia` (PlanDeEstudio.py lines 53-60): look the
code up; when found remove the first occurrence, otherwise report and leave
the plan unchanged.  Never raises. -/
def PlanDeEstudio.quitar_materia (p : PlanDeEstudio) (codigo : String) :
    PlanDeEstudio :=
  match p.buscar_uc_por_codigo codigo with
  | some materia => { p with materias := p.materias.erase materia }
  | none => p

/-- `Estudiante` (SdM.py lines 412-559): a Persona plus cedula, entry year,
linked plan and the four unit lists.  `_cedula` keeps the Python dynamic
value stored by the constructor.  The lists are typed as unit lists, the
state the constructor and the found-case staff operations maintain. -/
structure Estudiante where
  nombre : String
  apellido : String
  _cedula : PyVal
  anio_ingreso : Int
  plan : PlanDeEstudio
  ucs_aprobadas : List UnidadCurricular
  ucs_regulares : List UnidadCurricular
  ucs_a_examen : List UnidadCurricular
  ucs_cursando : List UnidadCurricular
deriving DecidableEq, Repr

/-- The `cedula` property (SdM.py lines 451-454): returns `_cedula`. -/
def Estudiante.cedula (e : Estudiante) : PyVal := e._cedula

/-- Python `str(estudiante)` (SdM.py lines 456-458):
`f"{nombre} {apellido} {cedula}"`. -/
def Estudiante.toStr (e : Estudiante) : String :=
  e.nombre ++ " " ++ e.apellido ++ " " ++ pyStr e.cedula

/-- `Estudiante.__init__` (SdM.py lines 425-450) together with
`Persona.__init__` (SdM.py lines 13-36): validates that name and surname are
non-blank strings, stores `_cedula` as passed, then checks that
`int(cedula)` succeeds (ValueError otherwise); the converted integer is
bound to a local and discarded. -/
def Estudiante.init (nombre apellido : String) (cedula : PyVal)
    (anio_ingreso : Int) (plan : PlanDeEstudio) : Except PyErr Estudiante :=
  if pyStrip nombre = "" then .error .valueError
  else if pyStrip apellido = "" then .error .valueError
  else
    match pyInt? cedula with
    | Option.none => .error .valueError
    | some _ =>
      .ok ⟨pyTitle (pyStrip nombre), pyTitle (pyStrip apellido), cedula,
        anio_ingreso, plan, [], [], [], []⟩

/-- The `re.search(r"S(\d+)$", codigo)` step of the Curso constructor
(SdM.py line 202): the value of the digit group when the code ends in `S`
followed by one or more digits, `none` when the pattern does not match. -/
def semestreSufijo (s : String) : Option Nat :=
  let rev := s.data.reverse
  let ds := rev.takeWhile Char.isDigit
  if ds.isEmpty then none
  else
    match rev.drop ds.length with
    | 'S' :: _ =>
      some (ds.reverse.foldl (fun n c => n * 10 + (c.toNat - '0'.toNat)) 0)
    | _ => none

/-- Comma-join of `f"{e.nombre} {e.apellido}"` over a roster, as written by
`Curso.actualizar_csv` (SdM.py line 282-283). -/
def joinNombres (l : List Estudiante) : String :=
  String.intercalate ", " (l.map (fun e => e.nombre ++ " " ++ e.apellido))

/-- Comma-join of `str(estudiante)` over a roster, as written by
`InstanciaDeExamen.generar_csv` / `actualizar_csv` (SdM.py lines 343, 396). -/
def joinStrs (l : List Estudiante) : String :=
  String.intercalate ", " (l.map Estudiante.toStr)

/-- `Curso` (SdM.py lines 153-300).  `uc = none` is the invalid sentinel the
constructor leaves behind on a failed validation (`self.uc = None`); the
remaining fields are then unset in Python and carry unobserved defaults
here (every operation checks `curso_valido` first).  `archivo` is the
current contents of the CSV file: a header row and one data row. -/
structure Curso where
  uc : Option UnidadCurricular
  codigo_uc : String
  nombre_uc : String
  anio : Int
  semestre : Int
  estudiantes : List Estudiante
  archivo : List (List String)
deriving DecidableEq, Repr

/-- `Curso.curso_valido` (SdM.py lines 223-230): `self.uc is not None`. -/
def Curso.curso_valido (c : Curso) : Bool := c.uc.isSome

/-- The header row written by `Curso.generar_csv` and `actualizar_csv`. -/
def cursoHeader : List String :=
  ["Código UC", "Nombre UC", "Año", "Semestre", "Estudiantes Inscritos"]

/-- `Curso.actualizar_csv` (SdM.py lines 273-285): overwrite the file with
the header and a data row whose last cell is the comma-joined
`nombre apellido` of the current roster. -/
def Curso.actualizar_csv (c : Curso) : Curso :=
  { c with archivo := [cursoHeader,
      [c.codigo_uc, c.nombre_uc, toString c.anio, toString c.semestre,
        joinNombres c.estudiantes]] }

/-- The invalid sentinel a failed `Curso.__init__` leaves behind
(SdM.py line 221, `self.uc = None`): no unit, the other attributes unset
(unobserved defaults here — every operation checks `curso_valido` first). -/
def Curso.invalido : Curso := ⟨none, "", "", 0, 0, [], []⟩

/-- The successfully constructed course (SdM.py lines 208-216): the
attribute assignments plus the initial `generar_csv` file, whose students
cell is empty. -/
def Curso.mkValido (uc : UnidadCurricular) (a s : Int) : Curso :=
  ⟨some uc, uc.codigo, uc.nombre, a, s, [],
    [cursoHeader, [uc.codigo, uc.nombre, toString a, toString s, ""]]⟩

/-- `Curso.__init__` (SdM.py lines 168-221): the validating constructor.
Checks, in order: the unit code is a string, the year is an int of at least
2000 (the source condition is `año < 2000` raises), the term is an int in
[1,10], the plan argument is a PlanDeEstudio (modelled as an `Option`
argument, `none` standing for a non-plan value), the unit code resolves in
the plan, and — when the unit code ends in `S` plus digits — the term equals
that suffix.  A raised ValueError / TypeError is caught and leaves the
invalid sentinel. -/
def Curso.init (codigo_uc anio semestre : PyVal) (plan : Option PlanDeEstudio) :
    Curso :=
  match codigo_uc with
  | .str codigo =>
    match anio with
    | .int a =>
      if a < 2000 then Curso.invalido
      else
        match semestre with
        | .int s =>
          if ¬ (1 ≤ s ∧ s ≤ 10) then Curso.invalido
          else
            match plan with
            | some p =>
              match p.buscar_uc_por_codigo codigo with
              | some uc =>
                match semestreSufijo uc.codigo with
                | some sc =>
                  if s ≠ (sc : Int) then Curso.invalido
                  else Curso.mkValido uc a s
                | none => Curso.mkValido uc a s
              | none => Curso.invalido
            | none => Curso.invalido
        | _ => Curso.invalido
    | _ => Curso.invalido
  | _ => Curso.invalido

/-- `Curso.agregar_estudiante` (SdM.py lines 244-271): no-op on an invalid
course; otherwise append the student when absent and rewrite the CSV,
report and leave everything unchanged when already enrolled.  The
`isinstance(estudiante, Estudiante)` check is discharged by the typing. -/
def Curso.agregar_estudiante (c : Curso) (estudiante : Estudiante) : Curso :=
  if ¬ c.curso_valido then c
  else if estudiante ∈ c.estudiantes then c
  else Curso.actualizar_csv
    { c with estudiantes := c.estudiantes ++ [estudiante] }

/-- The header row written by the exam CSV methods (SdM.py lines 342, 395). -/
def examenHeader : List String :=
  ["Código UC", "Fecha y Hora", "Estudiantes Inscritos"]

/-- `InstanciaDeExamen` (SdM.py lines 302-410): exam code, date, time, the
roster, and the current contents of its CSV file. -/
structure InstanciaDeExamen where
  codigo_uc : String
  fecha : String
  hora : String
  estudiantes : List Estudiante
  archivo : List (List String)
deriving DecidableEq, Repr

/-- `InstanciaDeExamen.actualizar_csv` (SdM.py lines 383-398): overwrite the
file with the header and a data row whose last cell comma-joins
`str(estudiante)` over the roster. -/
def InstanciaDeExamen.actualizar_csv (ex : InstanciaDeExamen) :
    InstanciaDeExamen :=
  { ex with archivo := [examenHeader,
      [ex.codigo_uc, ex.fecha ++ " " ++ ex.hora, joinStrs ex.estudiantes]] }

/-- `InstanciaDeExamen.__init__` (SdM.py lines 312-345): stores the fields
as given (no validation against a plan) and writes the initial CSV via
`generar_csv`, with an empty roster. -/
def InstanciaDeExamen.init (codigo_uc fecha hora : String) :
    InstanciaDeExamen :=
  ⟨codigo_uc, fecha, hora, [],
    [examenHeader, [codigo_uc, fecha ++ " " ++ hora, ""]]⟩

/-- `InstanciaDeExamen.agregar_estudiante` (SdM.py lines 347-381): scan the
student's regular units for the exam's code; when regular and not yet on
the roster, append and rewrite the CSV; when regular and already present,
report; when not regular, refuse.  All refusals leave the state unchanged. -/
def InstanciaDeExamen.agregar_estudiante (ex : InstanciaDeExamen)
    (estudiante : Estudiante) : InstanciaDeExamen :=
  match estudiante.ucs_regulares.find? (fun uc => uc.codigo == ex.codigo_uc) with
  | some _ =>
    if estudiante ∈ ex.estudiantes then ex
    else InstanciaDeExamen.actualizar_csv
      { ex with estudiantes := ex.estudiantes ++ [estudiante] }
  | none => ex

/-- The `for previa_codigo in uc.previas` loop of `_puede_inscribirse`
(SdM.py lines 500-504): resolve each prerequisite code in the plan —
`previa.codigo` on a failed lookup raises AttributeError (`None` has no
attribute) — and collect the resolved prerequisites whose code is not among
the approved codes. -/
def previasFaltantesLoop (plan : PlanDeEstudio) (codigos_aprobadas : List String) :
    List String → List UnidadCurricular → Except PyErr (List UnidadCurricular)
  | [], acc => .ok acc
  | previa_codigo :: rest, acc =>
    match plan.buscar_uc_por_codigo previa_codigo with
    | some previa =>
      previasFaltantesLoop plan codigos_aprobadas rest
        (if previa.codigo ∈ codigos_aprobadas then acc else acc ++ [previa])
    | none => .error .attributeError

/-- `Estudiante._puede_inscribirse` (SdM.py lines 487-519): resolve the unit
in the linked plan — a failed lookup raises AttributeError at `uc.previas` —
collect the missing prerequisites, and return false on missing
prerequisites, on already cursando, or on already approved; true otherwise.
A pure decision: no field of the student or the plan is written. -/
def Estudiante.puede_inscribirse (est : Estudiante) (codigo_uc : String) :
    Except PyErr Bool :=
  match est.plan.buscar_uc_por_codigo codigo_uc with
  | none => .error .attributeError
  | some uc =>
    let codigos_aprobadas := est.ucs_aprobadas.map (·.codigo)
    let codigos_cursando := est.ucs_cursando.map (·.codigo)
    match previasFaltantesLoop est.plan codigos_aprobadas uc.previas [] with
    | .error e => .error e
    | .ok previas_faltantes =>
      if previas_faltantes ≠ [] then .ok false
      else if uc.codigo ∈ codigos_cursando then .ok false
      else if uc.codigo ∈ codigos_aprobadas then .ok false
      else .ok true

/-- The three exit messages of `Estudiante.inscribirse_a_examen`
(SdM.py lines 521-541), reified as an outcome so a theorem can tell the
refusal reasons apart. -/
inductive ResultadoExamen where
  | inscripto
  | yaAprobada
  | sinRequisitos
deriving DecidableEq, Repr

/-- `Estudiante.inscribirse_a_examen` (SdM.py lines 521-541): scan the
regular units for the exam's code and on a hit delegate to the exam's
`agregar_estudiante` (which re-checks regularity); otherwise scan the
approved units and refuse with the already-passed message; otherwise refuse
as not meeting requirements.  Returns the new exam state and the outcome;
the student's own fields are never written. -/
def Estudiante.inscribirse_a_examen (est : Estudiante)
    (instancia_examen : InstanciaDeExamen) :
    InstanciaDeExamen × ResultadoExamen :=
  match est.ucs_regulares.find?
      (fun uc => uc.codigo == instancia_examen.codigo_uc) with
  | some _ =>
    (instancia_examen.agregar_estudiante est, .inscripto)
  | none =>
    match est.ucs_aprobadas.find?
        (fun uc => uc.codigo == instancia_examen.codigo_uc) with
    | some _ => (instancia_examen, .yaAprobada)
    | none => (instancia_examen, .sinRequisitos)

/-- `Coordinadora.inscribir_a_examen` (SdM.py lines 595-610): resolve the
exam's unit in the student's plan; when found and among the regular units,
delegate to the student's own registration; otherwise print a refusal — a
print that dereferences `uc.codigo` and so raises AttributeError when the
lookup failed.  The `isinstance` check is discharged by the typing. -/
def Coordinadora.inscribir_a_examen (estudiante : Estudiante)
    (examen : InstanciaDeExamen) : Except PyErr InstanciaDeExamen :=
  match estudiante.plan.buscar_uc_por_codigo examen.codigo_uc with
  | some uc =>
    if uc ∈ estudiante.ucs_regulares then
      .ok (estudiante.inscribirse_a_examen examen).1
    else .ok examen
  | none => .error .attributeError

/-- `Coordinadora.inscribir_a_curso` (SdM.py lines 613-633): refuse on an
invalid course; otherwise consult `_puede_inscribirse` (propagating any
exception it raises) and, when allowed, append the unit to the student's
cursando list and add the (updated) student to the course roster. -/
def Coordinadora.inscribir_a_curso (estudiante : Estudiante) (curso : Curso) :
    Except PyErr (Estudiante × Curso) :=
  if ¬ curso.curso_valido then .ok (estudiante, curso)
  else
    match estudiante.puede_inscribirse curso.codigo_uc with
    | .error e => .error e
    | .ok false => .ok (estudiante, curso)
    | .ok true =>
      match curso.uc with
      | some uc =>
        let est' := { estudiante with
          ucs_cursando := estudiante.ucs_cursando ++ [uc] }
        .ok (est', curso.agregar_estudiante est')
      | none => .error .attributeError

/-- `Coordinadora.quitar_uc_regular` (SdM.py lines 662-675): look the code
up in the student's plan and remove the unit from the regular list when
present; on a failed lookup the not-in-list print dereferences `uc.nombre`
(`None`) and raises AttributeError, leaving the state unchanged. -/
def Coordinadora.quitar_uc_regular (estudiante : Estudiante)
    (codigo_uc : String) : Except PyErr Estudiante :=
  match estudiante.plan.buscar_uc_por_codigo codigo_uc with
  | some uc =>
    if uc ∈ estudiante.ucs_regulares then
      .ok { estudiante with
        ucs_regulares := estudiante.ucs_regulares.erase uc }
    else .ok estudiante
  | none => .error .attributeError

/-- `Coordinadora.quitar_uc_aprobada` (SdM.py lines 677-690): as
`quitar_uc_regular` over the approved list. -/
def Coordinadora.quitar_uc_aprobada (estudiante : Estudiante)
    (codigo_uc : String) : Except PyErr Estudiante :=
  match estudiante.plan.buscar_uc_por_codigo codigo_uc with
  | some uc =>
    if uc ∈ estudiante.ucs_aprobadas then
      .ok { estudiante with
        ucs_aprobadas := estudiante.ucs_aprobadas.erase uc }
    else .ok estudiante
  | none => .error .attributeError

/-- `Coordinadora.agregar_uc_aprobada` (SdM.py lines 692-705): look the code
up and append the unit to the approved list when not yet there.  On a
failed lookup Python appends `None` to the list and then raises
AttributeError printing `uc.nombre`; the list type here holds units only,
so the embedding records that case as the raise (see the C4 analysis). -/
def Coordinadora.agregar_uc_aprobada (estudiante : Estudiante)
    (codigo_uc : String) : Except PyErr Estudiante :=
  match estudiante.plan.buscar_uc_por_codigo codigo_uc with
  | some uc =>
    if uc ∈ estudiante.ucs_aprobadas then .ok estudiante
    else .ok { estudiante with
      ucs_aprobadas := estudiante.ucs_aprobadas ++ [uc] }
  | none => .error .attributeError

/-- `Coordinadora.agregar_uc_regular` (SdM.py lines 707-720): as
`agregar_uc_aprobada` over the regular list. -/
def Coordinadora.agregar_uc_regular (estudiante : Estudiante)
    (codigo_uc : String) : Except PyErr Estudiante :=
  match estudiante.plan.buscar_uc_por_codigo codigo_uc with
  | some uc =>
    if uc ∈ estudiante.ucs_regulares then .ok estudiante
    else .ok { estudiante with
      ucs_regulares := estudiante.ucs_regulares ++ [uc] }
  | none => .error .attributeError

/-- `Secretaria.inscribir_a_examen` (SdM.py lines 769-784), a textual copy
of the Coordinadora method. -/
def Secretaria.inscribir_a_examen (estudiante : Estudiante)
    (examen : InstanciaDeExamen) : Except PyErr InstanciaDeExamen :=
  match estudiante.plan.buscar_uc_por_codigo examen.codigo_uc with
  | some uc =>
    if uc ∈ estudiante.ucs_regulares then
      .ok (estudiante.inscribirse_a_examen examen).1
    else .ok examen
  | none => .error .attributeError

/-- `Secretaria.inscribir_a_curso` (SdM.py lines 787-807), a textual copy
of the Coordinadora method. -/
def Secretaria.inscribir_a_curso (estudiante : Estudiante) (curso : Curso) :
    Except PyErr (Estudiante × Curso) :=
  if ¬ curso.curso_valido then .ok (estudiante, curso)
  else
    match estudiante.puede_inscribirse curso.codigo_uc with
    | .error e => .error e
    | .ok false => .ok (estudiante, curso)
    | .ok true =>
      match curso.uc with
      | some uc =>
        let est' := { estudiante with
          ucs_cursando := estudiante.ucs_cursando ++ [uc] }
        .ok (est', curso.agregar_estudiante est')
      | none => .error .attributeError

/-- `Secretaria.quitar_uc_regular` (SdM.py lines 836-849), a textual copy
of the Coordinadora method. -/
def Secretaria.quitar_uc_regular (estudiante : Estudiante)
    (codigo_uc : String) : Except PyErr Estudiante :=
  match estudiante.plan.buscar_uc_por_codigo codigo_uc with
  | some uc =>
    if uc ∈ estudiante.ucs_regulares then
      .ok { estudiante with
        ucs_regulares := estudiante.ucs_regulares.erase uc }
    else .ok estudiante
  | none => .error .attributeError

/-- `Secretaria.quitar_uc_aprobada` (SdM.py lines 851-864), a textual copy
of the Coordinadora method. -/
def Secretaria.quitar_uc_aprobada (estudiante : Estudiante)
    (codigo_uc : String) : Except PyErr Estudiante :=
  match estudiante.plan.buscar_uc_por_codigo codigo_uc with
  | some uc =>
    if uc ∈ estudiante.ucs_aprobadas then
      .ok { estudiante with
        ucs_aprobadas := estudiante.ucs_aprobadas.erase uc }
    else .ok estudiante
  | none => .error .attributeError

/-- `Secretaria.agregar_uc_aprobada` (SdM.py lines 866-879), a textual copy
of the Coordinadora method. -/
def Secretaria.agregar_uc_aprobada (estudiante : Estudiante)
    (codigo_uc : String) : Except PyErr Estudiante :=
  match estudiante.plan.buscar_uc_por_codigo codigo_uc with
  | some uc =>
    if uc ∈ estudiante.ucs_aprobadas then .ok estudiante
    else .ok { estudiante with
      ucs_aprobadas := estudiante.ucs_aprobadas ++ [uc] }
  | none => .error .attributeError

/-- `Secretaria.agregar_uc_regular` (SdM.py lines 881-894), a textual copy
of the Coordinadora method. -/
def Secretaria.agregar_uc_regular (estudiante : Estudiante)
    (codigo_uc : String) : Except PyErr Estudiante :=
  match estudiante.plan.buscar_uc_por_codigo codigo_uc with
  | some uc =>
    if uc ∈ estudiante.ucs_regulares then .ok estudiante
    else .ok { estudiante with
      ucs_regulares := estudiante.ucs_regulares ++ [uc] }
  | none => .error .attributeError

/-- The method names defined on the `Coordinadora` class
(SdM.py lines 561-763), in source order, `__init__` aside. -/
def coordinadoraOps : List String :=
  ["crear_plan", "inscribir_a_examen", "inscribir_a_curso", "ver_plan",
   "ver_estudiantes_curso", "ver_estudiantes_examen", "quitar_uc_regular",
   "quitar_uc_aprobada", "agregar_uc_aprobada", "agregar_uc_regular",
   "crear_curso", "crear_instancia_examen"]

/-- The method names defined on the `Secretaria` class
(SdM.py lines 765-894), in source order, `__init__` aside. -/
def secretariaOps : List String :=
  ["inscribir_a_examen", "inscribir_a_curso", "ver_plan",
   "ver_estudiantes_curso", "ver_estudiantes_examen", "quitar_uc_regular",
   "quitar_uc_aprobada", "agregar_uc_aprobada", "agregar_uc_regular"]


/-! Concrete fixtures used by the witnesses and counterexamples: a small
plan in the shape produced by the JSON loader, and two students. -/

def uc11 : UnidadCurricular := ⟨"UC1S1", "Matematica 1", 10, []⟩

def uc12 : UnidadCurricular := ⟨"UC1S2", "Matematica 2", 10, ["UC1S1"]⟩

def uc21 : UnidadCurricular := ⟨"UC2S1", "Programacion 1", 10, []⟩

def plan1 : PlanDeEstudio := ⟨"Plan 2021", [uc11, uc12, uc21]⟩

/-- A student regular in `UC1S1`, nothing approved. -/
def ana : Estudiante :=
  ⟨"Ana", "Perez", .str "123", 2024, plan1, [], [uc11], [], []⟩

/-- A student with `UC1S1` approved. -/
def beto : Estudiante :=
  ⟨"Beto", "Gomez", .int 456, 2023, plan1, [uc11], [], [], []⟩

/-- An exam sitting for `UC1S1`. -/
def examen1 : InstanciaDeExamen :=
  InstanciaDeExamen.init "UC1S1" "2024-01-01" "10:00"

/-- A valid course for `UC1S1`. -/
def curso1 : Curso :=
  Curso.init (.str "UC1S1") (.int 2024) (.int 1) (some plan1)

/-! Helper lemmas about the plan lookup. -/

/-- A successful `buscar_uc_por_codigo` returns a unit carrying the searched
code. -/
theorem buscar_eq_codigo {p : PlanDeEstudio} {c : String}
    {u : UnidadCurricular} (h : p.buscar_uc_por_codigo c = some u) :
    u.codigo = c := by
  unfold PlanDeEstudio.buscar_uc_por_codigo at h
  simpa using List.find?_some h

/-- The prerequisite loop, when every prerequisite code resolves, returns
normally, and its result extends the accumulator; the result is empty
exactly when the accumulator was empty and every prerequisite code is
among the approved codes. -/
theorem previasFaltantesLoop_resuelve (plan : PlanDeEstudio)
    (apr : List String) :
    ∀ (l : List String) (acc : List UnidadCurricular),
    (∀ pc ∈ l, (plan.buscar_uc_por_codigo pc).isSome) →
    ∃ res, previasFaltantesLoop plan apr l acc = .ok res ∧
      (res = [] ↔ acc = [] ∧ ∀ pc ∈ l, pc ∈ apr) := by
  intro l
  induction l with
  | nil =>
    intro acc _
    exact ⟨acc, rfl, by simp⟩
  | cons pc rest ih =>
    intro acc h
    have hpc : (plan.buscar_uc_por_codigo pc).isSome := h pc (by simp)
    obtain ⟨previa, hprev⟩ := Option.isSome_iff_exists.mp hpc
    have hcod : previa.codigo = pc := buscar_eq_codigo hprev
    have hrest : ∀ q ∈ rest, (plan.buscar_uc_por_codigo q).isSome :=
      fun q hq => h q (by simp [hq])
    by_cases hmem : pc ∈ apr
    · obtain ⟨res, hres, hiff⟩ := ih acc hrest
      refine ⟨res, ?_, ?_⟩
      · unfold previasFaltantesLoop
        rw [hprev]
        simpa [hcod, hmem] using hres
      · rw [hiff]
        constructor
        · rintro ⟨h1, h2⟩
          exact ⟨h1, by
            intro q hq
            rcases List.mem_cons.mp hq with rfl | hq'
            · exact hmem
            · exact h2 q hq'⟩
        · rintro ⟨h1, h2⟩
          exact ⟨h1, fun q hq => h2 q (by simp [hq])⟩
    · obtain ⟨res, hres, hiff⟩ := ih (acc ++ [previa]) hrest
      refine ⟨res, ?_, ?_⟩
      · unfold previasFaltantesLoop
        rw [hprev]
        simpa [hcod, hmem] using hres
      · rw [hiff]
        constructor
        · rintro ⟨h1, _⟩
          exact absurd h1 (by simp)
        · rintro ⟨_, h2⟩
          exact absurd (h2 pc (by simp)) hmem

/-- C1: for a student whose plan resolves the target unit and all of its
prerequisite codes, `_puede_inscribirse` returns true exactly when every
prerequisite code is among the approved codes, the target code is not among
the cursando codes, and the target code is not among the approved codes.
The embedded check is a pure function: no student or plan state is
written. -/
theorem puede_inscribirse_iff (est : Estudiante) (codigo_uc : String)
    (uc : UnidadCurricular)
    (huc : est.plan.buscar_uc_por_codigo codigo_uc = some uc)
    (hprev : ∀ pc ∈ uc.previas, (est.plan.buscar_uc_por_codigo pc).isSome) :
    est.puede_inscribirse codigo_uc = .ok true ↔
      ((∀ pc ∈ uc.previas, pc ∈ est.ucs_aprobadas.map (·.codigo)) ∧
        codigo_uc ∉ est.ucs_cursando.map (·.codigo) ∧
        codigo_uc ∉ est.ucs_aprobadas.map (·.codigo)) := by
  obtain ⟨res, hres, hiff⟩ :=
    previasFaltantesLoop_resuelve est.plan (est.ucs_aprobadas.map (·.codigo))
      uc.previas [] hprev
  have hcod : uc.codigo = codigo_uc := buscar_eq_codigo huc
  unfold Estudiante.puede_inscribirse
  simp only [huc, hres]
  simp only [true_and] at hiff
  by_cases h1 : res = []
  · have hall := hiff.mp h1
    by_cases h2 : codigo_uc ∈ est.ucs_cursando.map (·.codigo)
    · simp [h1, hcod, h2]
    · by_cases h3 : codigo_uc ∈ est.ucs_aprobadas.map (·.codigo)
      · simp [h1, hcod, h2, h3]
      · simp [h1, hcod, h2, h3]
        intro pc hpc
        simpa using hall pc hpc
  · have hnall : ¬ ∀ pc ∈ uc.previas,
        pc ∈ est.ucs_aprobadas.map (·.codigo) :=
      fun hall => h1 (hiff.mpr hall)
    simp [h1]
    intro hall' _
    exact absurd (fun pc hpc => by simpa using hall' pc hpc) hnall

/-- Witness for C1 at a concrete input: `beto` has the prerequisite of
`UC1S2` approved, is not cursando it and has not approved it, so the check
returns true. -/
theorem puede_inscribirse_iff_witness :
    beto.puede_inscribirse "UC1S2" = .ok true :=
  (puede_inscribirse_iff beto "UC1S2" uc12 (by decide) (by decide)).mpr
    (by decide)


/-- C2: called with a unit code unknown to the linked plan, the eligibility
check raises AttributeError (the `None` returned by the lookup is
dereferenced at `uc.previas`) instead of reporting and returning false:
`ZZZ` is not a code of the plan of `ana`. -/
theorem puede_inscribirse_desconocida :
    ana.puede_inscribirse "ZZZ" = .error .attributeError := rfl

/-- C3: the constructor accepts the year 2000 — the source condition is
`año < 2000` — producing a valid course, while the claim (and the
constructor docstring and error message, `mayor a 2000`) require the year
to exceed 2000; 1999 is rejected as expected. -/
theorem curso_acepta_anio_2000 :
    (Curso.init (.str "UC1S1") (.int 2000) (.int 1)
      (some plan1)).curso_valido = true ∧
    (Curso.init (.str "UC1S1") (.int 1999) (.int 1)
      (some plan1)).curso_valido = false := ⟨rfl, rfl⟩

/-- C4: the staff-role lookups do not no-op on a miss: with the unknown code
`ZZZ`, `quitar_uc_regular` and `agregar_uc_aprobada` raise AttributeError
(the failed lookup is dereferenced in the report; `agregar_uc_aprobada`
moreover appends the `None` to the approved list before raising, a state
change the unit-typed embedding cannot even represent).  The plan operation
`quitar_materia` does no-op without raising. -/
theorem quitar_uc_regular_desconocida :
    Coordinadora.quitar_uc_regular ana "ZZZ" = .error .attributeError ∧
    Coordinadora.agregar_uc_aprobada ana "ZZZ" = .error .attributeError ∧
    plan1.quitar_materia "ZZZ" = plan1 := ⟨rfl, rfl, rfl⟩

/-- The persisted-snapshot invariant of a course: the CSV contents are the
header row and the data row whose last cell comma-joins
`nombre apellido` over the roster, in order. -/
def Curso.snapshotOk (c : Curso) : Prop :=
  c.archivo = [cursoHeader,
    [c.codigo_uc, c.nombre_uc, toString c.anio, toString c.semestre,
      joinNombres c.estudiantes]]

/-- The persisted-snapshot invariant of an exam sitting: the CSV contents
are the header row and the data row whose last cell comma-joins
`str(estudiante)` — name, surname and cedula — over the roster, in order. -/
def InstanciaDeExamen.snapshotOk (ex : InstanciaDeExamen) : Prop :=
  ex.archivo = [examenHeader,
    [ex.codigo_uc, ex.fecha ++ " " ++ ex.hora, joinStrs ex.estudiantes]]

/-- C5, counterexample: after enrolling `ana` in the exam, the persisted
students cell is `Ana Perez 123` — `str(estudiante)` includes the cedula —
which differs from the comma-joined full names `Ana Perez` of the roster,
so the claim as stated fails for exam sittings. -/
theorem examen_csv_no_son_nombres :
    (examen1.agregar_estudiante ana).archivo =
      [examenHeader, ["UC1S1", "2024-01-01 10:00", "Ana Perez 123"]] ∧
    joinNombres (examen1.agregar_estudiante ana).estudiantes = "Ana Perez" ∧
    ("Ana Perez 123" : String) ≠ "Ana Perez" :=
  ⟨rfl, rfl, by decide⟩

/-- Every run of the constructor produces either the invalid sentinel or a
validated course. -/
theorem curso_init_cases (cod anio sem : PyVal) (plan : Option PlanDeEstudio) :
    Curso.init cod anio sem plan = Curso.invalido ∨
    ∃ uc a s, Curso.init cod anio sem plan = Curso.mkValido uc a s := by
  unfold Curso.init
  repeat' split
  all_goals first
    | (left; rfl)
    | (right; exact ⟨_, _, _, rfl⟩)

/-- C5 as amended: construction establishes and every roster mutation
preserves the snapshot invariant — the course cell joins the full names,
the exam cell joins the students' string representations (name, surname
and cedula), both in insertion order. -/
theorem snapshot_actualizado :
    (∀ (c : Curso) (e : Estudiante),
      Curso.snapshotOk c → Curso.snapshotOk (c.agregar_estudiante e)) ∧
    (∀ (ex : InstanciaDeExamen) (e : Estudiante),
      InstanciaDeExamen.snapshotOk ex →
        InstanciaDeExamen.snapshotOk (ex.agregar_estudiante e)) ∧
    (∀ cod fecha hora, InstanciaDeExamen.snapshotOk
      (InstanciaDeExamen.init cod fecha hora)) ∧
    (∀ cod anio sem plan, (Curso.init cod anio sem plan).curso_valido = true →
      Curso.snapshotOk (Curso.init cod anio sem plan)) := by
  refine ⟨?_, ?_, ?_, ?_⟩
  · intro c e h
    by_cases hv : c.curso_valido
    · by_cases he : e ∈ c.estudiantes
      · simpa [Curso.agregar_estudiante, hv, he] using h
      · simp [Curso.agregar_estudiante, hv, he, Curso.actualizar_csv,
          Curso.snapshotOk]
    · simpa [Curso.agregar_estudiante, hv] using h
  · intro ex e h
    unfold InstanciaDeExamen.agregar_estudiante
    cases hf : e.ucs_regulares.find? (fun uc => uc.codigo == ex.codigo_uc) with
    | none => simpa using h
    | some u =>
      by_cases he : e ∈ ex.estudiantes
      · simpa [he] using h
      · simp [he, InstanciaDeExamen.actualizar_csv,
          InstanciaDeExamen.snapshotOk]
  · intro cod fecha hora
    simp [InstanciaDeExamen.init, InstanciaDeExamen.snapshotOk, joinStrs,
      String.intercalate]
  · intro cod anio sem plan hv
    rcases curso_init_cases cod anio sem plan with h | ⟨uc, a, s, h⟩
    · rw [h] at hv
      simp [Curso.invalido, Curso.curso_valido] at hv
    · rw [h]
      simp [Curso.mkValido, Curso.snapshotOk, joinNombres,
        String.intercalate]

/-- Witness for the amended C5 at a concrete input: the snapshot invariant
holds for the exam after its construction and again after enrolling `ana`. -/
theorem snapshot_actualizado_witness :
    InstanciaDeExamen.snapshotOk (examen1.agregar_estudiante ana) :=
  snapshot_actualizado.2.1 examen1 ana
    (snapshot_actualizado.2.2.1 "UC1S1" "2024-01-01" "10:00")

/-- C6: adding the same student a second time to a course or an exam
sitting leaves the whole object — roster and CSV — unchanged, and one add
never introduces a duplicate into a duplicate-free roster. -/
theorem agregar_estudiante_idempotente :
    (∀ (c : Curso) (e : Estudiante),
      (c.agregar_estudiante e).agregar_estudiante e = c.agregar_estudiante e) ∧
    (∀ (c : Curso) (e : Estudiante), c.estudiantes.Nodup →
      (c.agregar_estudiante e).estudiantes.Nodup) ∧
    (∀ (ex : InstanciaDeExamen) (e : Estudiante),
      (ex.agregar_estudiante e).agregar_estudiante e = ex.agregar_estudiante e) ∧
    (∀ (ex : InstanciaDeExamen) (e : Estudiante), ex.estudiantes.Nodup →
      (ex.agregar_estudiante e).estudiantes.Nodup) := by
  refine ⟨?_, ?_, ?_, ?_⟩
  · intro c e
    by_cases hv : c.curso_valido
    · by_cases he : e ∈ c.estudiantes
      · simp [Curso.agregar_estudiante, hv, he]
      · have h1 : c.agregar_estudiante e = Curso.actualizar_csv
            { c with estudiantes := c.estudiantes ++ [e] } := by
          simp [Curso.agregar_estudiante, hv, he]
        rw [h1]
        simp [Curso.agregar_estudiante, Curso.actualizar_csv,
          Curso.curso_valido] at hv ⊢
    · simp [Curso.agregar_estudiante, hv]
  · intro c e hnd
    by_cases hv : c.curso_valido
    · by_cases he : e ∈ c.estudiantes
      · simpa [Curso.agregar_estudiante, hv, he] using hnd
      · simp [Curso.agregar_estudiante, hv, he, Curso.actualizar_csv,
          List.nodup_append, hnd]
    · simpa [Curso.agregar_estudiante, hv] using hnd
  · intro ex e
    cases hf : e.ucs_regulares.find? (fun uc => uc.codigo == ex.codigo_uc) with
    | none => simp [InstanciaDeExamen.agregar_estudiante, hf]
    | some u =>
      by_cases he : e ∈ ex.estudiantes
      · simp [InstanciaDeExamen.agregar_estudiante, hf, he]
      · have h1 : ex.agregar_estudiante e = InstanciaDeExamen.actualizar_csv
            { ex with estudiantes := ex.estudiantes ++ [e] } := by
          simp [InstanciaDeExamen.agregar_estudiante, hf, he]
        rw [h1]
        unfold InstanciaDeExamen.agregar_estudiante
          InstanciaDeExamen.actualizar_csv
        simp only
        rw [hf]
        simp
  · intro ex e hnd
    cases hf : e.ucs_regulares.find? (fun uc => uc.codigo == ex.codigo_uc) with
    | none => simpa [InstanciaDeExamen.agregar_estudiante, hf] using hnd
    | some u =>
      by_cases he : e ∈ ex.estudiantes
      · simpa [InstanciaDeExamen.agregar_estudiante, hf, he] using hnd
      · simp [InstanciaDeExamen.agregar_estudiante, hf, he,
          InstanciaDeExamen.actualizar_csv, List.nodup_append, hnd]

/-- Witness for the Nodup parts of C6 at a concrete input: the roster of
the valid course `curso1`, and of `examen1`, stays duplicate-free after an
add. -/
theorem agregar_estudiante_idempotente_witness :
    (curso1.agregar_estudiante ana).estudiantes.Nodup ∧
    (examen1.agregar_estudiante ana).estudiantes.Nodup :=
  ⟨agregar_estudiante_idempotente.2.1 curso1 ana (by decide),
   agregar_estudiante_idempotente.2.2.2 examen1 ana (by decide)⟩

/-- The regularity scan of the exam methods succeeds exactly when the
exam's code is among the codes of the scanned list. -/
theorem find_codigo_isSome (l : List UnidadCurricular) (cod : String) :
    (l.find? (fun uc => uc.codigo == cod)).isSome ↔
      cod ∈ l.map (·.codigo) := by
  rw [List.find?_isSome]
  constructor
  · rintro ⟨x, hx, hp⟩
    exact List.mem_map.mpr ⟨x, hx, by simpa using hp⟩
  · intro h
    obtain ⟨x, hx, hcod⟩ := List.mem_map.mp h
    exact ⟨x, hx, by simpa using hcod⟩

/-- C7: the exam-registration method registers the student (appending to
the roster when absent) exactly when the exam's code is among the regular
codes; refuses with the already-passed outcome when the code is not regular
but approved; refuses as not meeting requirements when neither — both
refusals leaving the exam unchanged. -/
theorem inscribirse_a_examen_casos (est : Estudiante)
    (ex : InstanciaDeExamen) :
    (ex.codigo_uc ∈ est.ucs_regulares.map (·.codigo) →
      (est.inscribirse_a_examen ex).2 = .inscripto ∧
      est ∈ (est.inscribirse_a_examen ex).1.estudiantes ∧
      (est.inscribirse_a_examen ex).1.estudiantes =
        (if est ∈ ex.estudiantes then ex.estudiantes
          else ex.estudiantes ++ [est])) ∧
    (ex.codigo_uc ∉ est.ucs_regulares.map (·.codigo) →
      ex.codigo_uc ∈ est.ucs_aprobadas.map (·.codigo) →
      (est.inscribirse_a_examen ex).2 = .yaAprobada ∧
      (est.inscribirse_a_examen ex).1 = ex) ∧
    (ex.codigo_uc ∉ est.ucs_regulares.map (·.codigo) →
      ex.codigo_uc ∉ est.ucs_aprobadas.map (·.codigo) →
      (est.inscribirse_a_examen ex).2 = .sinRequisitos ∧
      (est.inscribirse_a_examen ex).1 = ex) := by
  refine ⟨?_, ?_, ?_⟩
  · intro hmem
    obtain ⟨u, hu⟩ := Option.isSome_iff_exists.mp
      ((find_codigo_isSome est.ucs_regulares ex.codigo_uc).mpr hmem)
    unfold Estudiante.inscribirse_a_examen
    simp only [hu]
    refine ⟨by trivial, ?_, ?_⟩
    · unfold InstanciaDeExamen.agregar_estudiante
      simp only [hu]
      by_cases he : est ∈ ex.estudiantes
      · simp [he]
      · simp [he, InstanciaDeExamen.actualizar_csv]
    · unfold InstanciaDeExamen.agregar_estudiante
      simp only [hu]
      by_cases he : est ∈ ex.estudiantes
      · simp [he]
      · simp [he, InstanciaDeExamen.actualizar_csv]
  · intro hnreg hapr
    have hn : est.ucs_regulares.find? (fun uc => uc.codigo == ex.codigo_uc)
        = none := by
      rw [← Option.not_isSome_iff_eq_none, find_codigo_isSome]
      exact hnreg
    obtain ⟨u, hu⟩ := Option.isSome_iff_exists.mp
      ((find_codigo_isSome est.ucs_aprobadas ex.codigo_uc).mpr hapr)
    unfold Estudiante.inscribirse_a_examen
    simp [hn, hu]
  · intro hnreg hnapr
    have hn : est.ucs_regulares.find? (fun uc => uc.codigo == ex.codigo_uc)
        = none := by
      rw [← Option.not_isSome_iff_eq_none, find_codigo_isSome]
      exact hnreg
    have hn' : est.ucs_aprobadas.find? (fun uc => uc.codigo == ex.codigo_uc)
        = none := by
      rw [← Option.not_isSome_iff_eq_none, find_codigo_isSome]
      exact hnapr
    unfold Estudiante.inscribirse_a_examen
    simp [hn, hn']

/-- Witness for C7 at a concrete input: `ana` is regular in `UC1S1` and is
registered; `beto` has it approved but not regular and is refused with the
already-passed outcome. -/
theorem inscribirse_a_examen_casos_witness :
    ((ana.inscribirse_a_examen examen1).2 = .inscripto ∧
      ana ∈ (ana.inscribirse_a_examen examen1).1.estudiantes) ∧
    (beto.inscribirse_a_examen examen1).2 = .yaAprobada :=
  ⟨⟨((inscribirse_a_examen_casos ana examen1).1 (by decide)).1,
    ((inscribirse_a_examen_casos ana examen1).1 (by decide)).2.1⟩,
   ((inscribirse_a_examen_casos beto examen1).2.1 (by decide) (by decide)).1⟩

/-- A plan whose only unit, `UC2S1`, is not the first unit the code
synthesis would have produced for term 1. -/
def planColision : PlanDeEstudio := ⟨"P", [uc21]⟩

/-- C8, counterexample: on a plan holding the single unit `UC2S1`, one unit
ends with the suffix `S1`, so `agregar_materia_manual` for term 1
synthesizes `UC2S1` again and the plan ends with a duplicated code. -/
theorem agregar_materia_manual_duplicado :
    planColision.agregar_materia_manual "nueva" 5 1 Option.none =
      .ok ⟨"P", [uc21, ⟨"UC2S1", "Nueva", 5, []⟩]⟩ ∧
    ¬ ((⟨"P", [uc21, ⟨"UC2S1", "Nueva", 5, []⟩]⟩ :
        PlanDeEstudio).materias.map (·.codigo)).Nodup :=
  ⟨rfl, by decide⟩

/-- C8 as amended: for a term in [1,10] and a non-empty name, the
operation appends exactly one unit carrying the synthesized code
`UC(count+1)S(term)`; when that code is not already present — which the
counting scheme does not itself guarantee — the plan's codes remain
unique. -/
theorem agregar_materia_manual_unico (p : PlanDeEstudio) (nombre : String)
    (creditos semestre : Int) (previas : Option (List String))
    (hn : nombre ≠ "") (h1 : 1 ≤ semestre) (h10 : semestre ≤ 10)
    (hnd : (p.materias.map (·.codigo)).Nodup)
    (hfresh : codigoSintetizado p semestre ∉ p.materias.map (·.codigo)) :
    p.agregar_materia_manual nombre creditos semestre previas =
      .ok { p with materias := p.materias ++
        [⟨codigoSintetizado p semestre, (pyLower nombre).capitalize,
          creditos, previas.getD []⟩] } ∧
    ((p.materias ++
        [(⟨codigoSintetizado p semestre, (pyLower nombre).capitalize,
          creditos, previas.getD []⟩ : UnidadCurricular)]).map
        (·.codigo)).Nodup := by
  constructor
  · unfold PlanDeEstudio.agregar_materia_manual
    rw [if_neg hn, if_neg (by omega : ¬ (semestre < 1 ∨ semestre > 10))]
  · simp [List.map_append, List.nodup_append, hnd, hfresh]

/-- Witness for the amended C8 at a concrete input: adding a term-2 unit to
`plan1` (codes `UC1S1`, `UC1S2`, `UC2S1`) synthesizes the fresh code
`UC2S2` and keeps the codes unique. -/
theorem agregar_materia_manual_unico_witness :
    plan1.agregar_materia_manual "nueva" 5 2 Option.none =
      .ok { plan1 with materias := plan1.materias ++
        [⟨codigoSintetizado plan1 2, (pyLower "nueva").capitalize, 5,
          (Option.none : Option (List String)).getD []⟩] } ∧
    ((plan1.materias ++
        [(⟨codigoSintetizado plan1 2, (pyLower "nueva").capitalize, 5,
          (Option.none : Option (List String)).getD []⟩ :
            UnidadCurricular)]).map (·.codigo)).Nodup :=
  agregar_materia_manual_unico plan1 "nueva" 5 2 Option.none (by decide)
    (by decide) (by decide) (by decide) (by decide)

/-- C9, counterexample: the two staff roles do not expose the same
operation set — `crear_curso` (like `crear_plan` and
`crear_instancia_examen`) is defined on Coordinadora only. -/
theorem roles_operaciones_distintas :
    ("crear_curso" ∈ coordinadoraOps ∧ "crear_curso" ∉ secretariaOps) ∧
    coordinadoraOps ≠ secretariaOps := by decide

/-- C9 as amended: Secretaria exposes a subset of the Coordinadora
operations (all but the three creation helpers), and every shared
state-affecting operation is the same function on both roles: same
results, same state changes, on all arguments. -/
theorem roles_compartidos_iguales :
    secretariaOps.all (fun op => coordinadoraOps.contains op) = true ∧
    Secretaria.inscribir_a_examen = Coordinadora.inscribir_a_examen ∧
    Secretaria.inscribir_a_curso = Coordinadora.inscribir_a_curso ∧
    Secretaria.quitar_uc_regular = Coordinadora.quitar_uc_regular ∧
    Secretaria.quitar_uc_aprobada = Coordinadora.quitar_uc_aprobada ∧
    Secretaria.agregar_uc_aprobada = Coordinadora.agregar_uc_aprobada ∧
    Secretaria.agregar_uc_regular = Coordinadora.agregar_uc_regular :=
  ⟨by decide, rfl, rfl, rfl, rfl, rfl, rfl⟩

/-- C10: a successful construction stores the cedula exactly as passed —
the `int` conversion is bound to a local and discarded — and, the names
being non-blank, construction succeeds exactly when `int(cedula)`
succeeds. -/
theorem estudiante_cedula_original (nombre apellido : String) (cedula : PyVal)
    (anio : Int) (plan : PlanDeEstudio) :
    (∀ est, Estudiante.init nombre apellido cedula anio plan = .ok est →
      est.cedula = cedula) ∧
    (pyStrip nombre ≠ "" → pyStrip apellido ≠ "" →
      ((Estudiante.init nombre apellido cedula anio plan).isOk = true ↔
        (pyInt? cedula).isSome = true)) := by
  constructor
  · intro est h
    unfold Estudiante.init at h
    by_cases h1 : pyStrip nombre = ""
    · simp [h1] at h
    · by_cases h2 : pyStrip apellido = ""
      · simp [h1, h2] at h
      · cases hc : pyInt? cedula with
        | none => simp [h1, h2, hc] at h
        | some k =>
          simp [h1, h2, hc] at h
          rw [← h]
          rfl
  · intro hn ha
    unfold Estudiante.init
    rw [if_neg hn, if_neg ha]
    cases hc : pyInt? cedula with
    | none => simp [Except.isOk, Except.toBool]
    | some k => simp [Except.isOk, Except.toBool]

/-- Witness for C10 at a concrete input: the string cedula `123` passes the
`int` check and is stored as the string, not as the integer 123. -/
theorem estudiante_cedula_original_witness :
    Estudiante.cedula
      ⟨"Ana", "Perez", PyVal.str "123", 2024, plan1, [], [], [], []⟩ =
        PyVal.str "123" ∧
    ((Estudiante.init "ana" "perez" (PyVal.str "123") 2024 plan1).isOk = true
      ↔ (pyInt? (PyVal.str "123")).isSome = true) :=
  ⟨(estudiante_cedula_original "ana" "perez" (PyVal.str "123") 2024 plan1).1
      ⟨"Ana", "Perez", PyVal.str "123", 2024, plan1, [], [], [], []⟩ rfl,
   (estudiante_cedula_original "ana" "perez" (PyVal.str "123") 2024 plan1).2
      (by decide) (by decide)⟩
